import Mathlib

/-!
Verification development for the match-predictor backend's synchronization
subsystem.  The definitions below are shallow embeddings of the TypeScript
source: `src/sync/sync.service.ts` (sync orchestrator, lock/status tracker,
coordinate extractor), `src/sync/services/sports.service.ts` (rate-limited
sports-data client) and the weather enrichment service.  External HTTP
responses are passed in as explicit `Except`/`Option` values; machine floats
on the coordinate path are modelled as exact rationals; JavaScript truthiness
on numbers and strings is modelled explicitly (`0`, `NaN`/absent and `""` are
falsy).
-/

namespace MatchPredictor

/-- A stored match document, restricted to the fields the verified
properties touch (`idEvent` natural key, league / season labels used by the
season-skip rule, and the mutable score fields). -/
structure MatchDoc where
  idEvent : String
  idLeague : String
  strSeason : String
  intHomeScore : Option String
  intAwayScore : Option String
  deriving DecidableEq

/-- `matchModel.countDocuments({idLeague, strSeason})` from
`syncPreviousMatches` (sync.service.ts lines 455-458). -/
def countSeasonMatches (store : List MatchDoc) (leagueId : Nat) (season : String) : Nat :=
  (store.filter (fun m => m.idLeague == toString leagueId && m.strSeason == season)).length

/-- `matchModel.countDocuments({idEvent})`: number of stored documents for a
given event id. -/
def countByIdEvent (store : List MatchDoc) (e : String) : Nat :=
  (store.filter (fun m => m.idEvent == e)).length

/-- Season label formatting from `syncPreviousMatches` (lines 441-450):
La Liga (4335) uses `"YYYY-YYYY+1"`, MLS (4346) uses `"YYYY"`, any other
league id throws. -/
def seasonLabel (leagueId year : Nat) : Except String String :=
  if leagueId = 4335 then
    Except.ok (toString year ++ "-" ++ toString (year + 1))
  else if leagueId = 4346 then
    Except.ok (toString year)
  else
    Except.error ("Unsupported leagueId: " ++ toString leagueId)

/-- One iteration of the season loop of `syncPreviousMatches` (lines
437-467), up to the decision whether the external season-listing API is
called.  Returns the season label together with `true` when the API call is
performed, i.e. unless the season is not the current year and the store
already holds at least one match for the `(league, season)` pair. -/
def seasonIteration (store : List MatchDoc) (leagueId currentYear i : Nat) :
    Except String (String × Bool) :=
  let year := currentYear - i
  (seasonLabel leagueId year).map fun season =>
    let isCurrentYear : Bool := year == currentYear
    let existingMatchesCount := countSeasonMatches store leagueId season
    let skipped : Bool := !isCurrentYear && decide (0 < existingMatchesCount)
    (season, !skipped)

/-- The full season loop driven by `for (let i = 0; i <= yearsToSync; i++)`:
the list of seasons iterated, each tagged with whether the season-listing
API call was performed. -/
def seasonCallPlan (store : List MatchDoc) (leagueId currentYear yearsToSync : Nat) :
    Except String (List (String × Bool)) :=
  (List.range (yearsToSync + 1)).mapM (seasonIteration store leagueId currentYear)

/-- Mongo `findOneAndUpdate` replaces the first document matching the
filter; this is that replacement step for the `{idEvent}` filter. -/
def replaceFirst (store : List MatchDoc) (doc : MatchDoc) : List MatchDoc :=
  match store with
  | [] => []
  | m :: rest =>
    if m.idEvent == doc.idEvent then doc :: rest
    else m :: replaceFirst rest doc

/-- `matchModel.findOneAndUpdate({idEvent}, matchDocument, {upsert: true})`
from `syncPreviousMatches` (lines 621-625): update the matching document if
one exists, insert otherwise. -/
def upsertMatch (store : List MatchDoc) (doc : MatchDoc) : List MatchDoc :=
  if store.any (fun m => m.idEvent == doc.idEvent) then replaceFirst store doc
  else store ++ [doc]

/-! ### Rate-limited sports-data client (`sports.service.ts`)

Each operation is modelled as a function of the current `apiCallCount` and
of the outcome of the underlying HTTP request (error message, or the
optional payload array found on `response.data`).  It returns the counter
after the call, whether the rate-limit cooldown suspended the caller, and
the operation's result (`Except.error` models a rethrown exception). -/

/-- `RATE_LIMIT = 28` requests per window. -/
def rateLimit : Nat := 28

/-- `WAIT_TIME_MS = 60000`: the 60-second cooldown. -/
def waitTimeMs : Nat := 60000

/-- `checkRateLimit()` (sports.service.ts lines 29-42): if the counter has
reached the limit, sleep `waitTimeMs` and reset the counter to 0.  Returns
the counter afterwards and whether the caller was suspended. -/
def checkRateLimit (apiCallCount : Nat) : Nat × Bool :=
  if rateLimit ≤ apiCallCount then (0, true) else (apiCallCount, false)

/-- Result of one client operation: counter after the call, whether the
cooldown fired, and the operation's return or rethrown error. -/
structure OpResult (α : Type) where
  counter : Nat
  waited : Bool
  result : Except String α

/-- `getMatchesBySeason` (lines 51-82): rate-limit check, increment, then
return `response.data.events` when present, `[]` when the response has no
events, and rethrow the error on a failed request. -/
def getMatchesBySeasonOp (apiCallCount : Nat)
    (resp : Except String (Option (List α))) : OpResult (List α) :=
  let (c1, waited) := checkRateLimit apiCallCount
  let c2 := c1 + 1
  match resp with
  | Except.ok (some events) => ⟨c2, waited, Except.ok events⟩
  | Except.ok none => ⟨c2, waited, Except.ok []⟩
  | Except.error e => ⟨c2, waited, Except.error e⟩

/-- `searchVenue` (lines 84-121): rate-limit check, increment, then return
the first venue of `response.data.venues` when non-empty, `null` when the
list is absent or empty, and `null` (not a rethrow) on a failed request. -/
def searchVenueOp (apiCallCount : Nat)
    (resp : Except String (Option (List α))) : OpResult (Option α) :=
  let (c1, waited) := checkRateLimit apiCallCount
  let c2 := c1 + 1
  match resp with
  | Except.ok (some (v :: _)) => ⟨c2, waited, Except.ok (some v)⟩
  | Except.ok (some []) => ⟨c2, waited, Except.ok none⟩
  | Except.ok none => ⟨c2, waited, Except.ok none⟩
  | Except.error _ => ⟨c2, waited, Except.ok none⟩

/-- `getUpcomingMatches` (lines 123-153): rate-limit check, increment, then
return `response.data.events` when present, `[]` when absent, and rethrow
the error on a failed request. -/
def getUpcomingMatchesOp (apiCallCount : Nat)
    (resp : Except String (Option (List α))) : OpResult (List α) :=
  let (c1, waited) := checkRateLimit apiCallCount
  let c2 := c1 + 1
  match resp with
  | Except.ok (some events) => ⟨c2, waited, Except.ok events⟩
  | Except.ok none => ⟨c2, waited, Except.ok []⟩
  | Except.error e => ⟨c2, waited, Except.error e⟩

/-! ### Weather enrichment client (`weather.service.ts`) -/

/-- One entry of the provider's `weather` category list
(`main` / `description` / `icon`). -/
structure WeatherCategory where
  main : String
  description : String
  icon : String
  deriving DecidableEq

/-- One element of the OneCall timemachine `data` array, restricted to the
fields the service reads.  Numeric provider values are exact rationals;
`visibility` is optional in the provider payload. -/
structure WeatherEntry where
  temp : ℚ
  feels_like : ℚ
  humidity : ℚ
  pressure : ℚ
  visibility : Option ℚ
  wind_speed : ℚ
  wind_deg : ℚ
  clouds : ℚ
  weather : List WeatherCategory
  deriving DecidableEq

/-- The snapshot built by `getWeatherAtTimestamp` on success. -/
structure WeatherSnapshot where
  temperature : ℚ
  feelsLike : ℚ
  humidity : ℚ
  pressure : ℚ
  visibility : Option ℚ
  windSpeed : ℚ
  windDirection : ℚ
  clouds : ℚ
  weather : Option String
  weatherDescription : Option String
  weatherIcon : Option String
  lat : ℚ
  lon : ℚ
  timestamp : String
  deriving DecidableEq

/-- `WeatherService.getWeatherAtTimestamp`: throws when
`OPENWEATHER_API_KEY` is absent (this happens before the try/catch); with a
key present, a failed request or a response without a non-empty `data`
array yields `null`, and a populated response is normalized into a
`WeatherSnapshot` (visibility meters to km, `0` visibility being falsy maps
to `undefined`; first entry of the `weather` list). -/
def getWeatherAtTimestamp (apiKey : Option String) (lat lon : ℚ) (timestamp : String)
    (resp : Except String (Option (List WeatherEntry))) :
    Except String (Option WeatherSnapshot) :=
  match apiKey with
  | none => Except.error "OPENWEATHER_API_KEY is not set in environment variables"
  | some _ =>
    match resp with
    | Except.error _ => Except.ok none
    | Except.ok none => Except.ok none
    | Except.ok (some []) => Except.ok none
    | Except.ok (some (w :: _)) =>
      Except.ok (some
        { temperature := w.temp
          feelsLike := w.feels_like
          humidity := w.humidity
          pressure := w.pressure
          visibility :=
            match w.visibility with
            | some v => if v = 0 then none else some (v / 1000)
            | none => none
          windSpeed := w.wind_speed
          windDirection := w.wind_deg
          clouds := w.clouds
          weather := w.weather.head?.map WeatherCategory.main
          weatherDescription := w.weather.head?.map WeatherCategory.description
          weatherIcon := w.weather.head?.map WeatherCategory.icon
          lat := lat
          lon := lon
          timestamp := timestamp })

/-! ### Distributed lock and status tracker (`sync.service.ts`)

The shared key-value store holds two keys: `SYNC_LOCK_KEY` and
`SYNC_STATUS_KEY`.  Each stored value carries the TTL (in milliseconds) it
was set with. -/

/-- Aggregate result of a sync run. -/
structure SyncTotals where
  totalMatches : Nat
  syncedMatches : Nat
  skippedMatches : Nat
  skippedSeasons : Nat
  deriving DecidableEq

/-- The structured status document written under `SYNC_STATUS_KEY`,
restricted to the fields the orchestrator writes. -/
structure StatusDoc where
  startedAt : Option String
  currentLeague : Option Nat
  currentLeagueName : Option String
  yearsToSync : Option Nat
  status : Option String
  error : Option String
  completedAt : Option String
  result : Option SyncTotals
  deriving DecidableEq

/-- The two well-known keys of the shared key-value store, with the TTL
each value was set with. -/
structure CacheState where
  lock : Option (String × Nat)
  syncStatus : Option (StatusDoc × Nat)
  deriving DecidableEq

/-- `isSyncRunning()` (lines 164-167): the lock key holds `"running"`. -/
def isSyncRunning (c : CacheState) : Bool :=
  c.lock.map Prod.fst == some "running"

/-- `getSyncStatus()` (lines 173-184): `{isRunning, status}` where `status`
is the stored status document or `null`. -/
def getSyncStatus (c : CacheState) : Bool × Option StatusDoc :=
  (isSyncRunning c, c.syncStatus.map Prod.fst)

/-- `setSyncLock(running, status?)` (lines 210-220): when `running`, set the
lock to `"running"` with a 2-hour TTL and, if given, the status with the
same TTL; otherwise delete BOTH the lock key and the status key. -/
def setSyncLock (running : Bool) (status : Option StatusDoc) (c : CacheState) : CacheState :=
  if running then
    let c1 := { c with lock := some ("running", 7200000) }
    match status with
    | some s => { c1 with syncStatus := some (s, 7200000) }
    | none => c1
  else
    { c with lock := none, syncStatus := none }

/-- The terminal `completed` status written by `syncAllLeagues` on success
(lines 378-388): spread of the current status document, `status:
'completed'`, `completedAt`, and the aggregate result. -/
def completedStatus (cur : Option StatusDoc) (now : String) (res : SyncTotals) : StatusDoc :=
  let base := cur.getD ⟨none, none, none, none, none, none, none, none⟩
  { base with status := some "completed", completedAt := some now, result := some res }

/-- The terminal `error` status written by `syncAllLeagues` on failure
(lines 398-408). -/
def errorStatus (cur : Option StatusDoc) (now : String) (msg : String) : StatusDoc :=
  let base := cur.getD ⟨none, none, none, none, none, none, none, none⟩
  { base with status := some "error", error := some msg, completedAt := some now }

/-- The tail of `syncAllLeagues` (lines 377-415): with the outcome of the
league loop given, write the terminal status with a 1-hour TTL (success and
error paths alike), then run the `finally` block, which calls
`setSyncLock(false)`.  Returns the final cache state and the returned or
rethrown outcome. -/
def syncAllLeaguesFinish (outcome : Except String SyncTotals) (now : String)
    (c : CacheState) : CacheState × Except String SyncTotals :=
  let cur := c.syncStatus.map Prod.fst
  match outcome with
  | Except.ok res =>
    let c1 := { c with syncStatus := some (completedStatus cur now res, 3600000) }
    let c2 := setSyncLock false none c1
    (c2, Except.ok res)
  | Except.error msg =>
    let c1 := { c with syncStatus := some (errorStatus cur now msg, 3600000) }
    let c2 := setSyncLock false none c1
    (c2, Except.error msg)

/-! ### Lock acquisition under interleaving (`acquireSyncLock`, lines
190-205)

`acquireSyncLock` performs a read (`isSyncRunning`) and, if the lock was not
seen, a separate write (`setSyncLock(true, ...)`).  The two steps are
distinct awaited round-trips to the shared store, so two concurrent callers
interleave.  Each caller is a two-step program over the shared lock cell. -/

/-- Program counter of one `acquireSyncLock` caller. -/
inductive LockPC where
  | start
  | checked (sawRunning : Bool)
  | done (result : Bool)
  deriving DecidableEq

/-- Shared lock cell plus the two callers' local states. -/
structure LockWorld where
  lock : Option String
  a : LockPC
  b : LockPC
  deriving DecidableEq

/-- One step of a single caller: first the `isSyncRunning` read, then
either returning `false` (lock seen) or setting `LOCK="running"` and
returning `true`. -/
def lockStepOf (lock : Option String) (pc : LockPC) : Option String × LockPC :=
  match pc with
  | LockPC.start => (lock, LockPC.checked (lock == some "running"))
  | LockPC.checked true => (lock, LockPC.done false)
  | LockPC.checked false => (some "running", LockPC.done true)
  | LockPC.done r => (lock, LockPC.done r)

/-- Interleaved step: `true` schedules caller A, `false` caller B. -/
def lockStep (who : Bool) (w : LockWorld) : LockWorld :=
  if who then
    let (l, pc) := lockStepOf w.lock w.a
    { w with lock := l, a := pc }
  else
    let (l, pc) := lockStepOf w.lock w.b
    { w with lock := l, b := pc }

/-- Run a schedule of interleaved caller steps. -/
def lockRun (sched : List Bool) (w : LockWorld) : LockWorld :=
  sched.foldl (fun w who => lockStep who w) w

/-! ### Coordinate extractor (`extractCoordinatesFromStrMap`, sync.service.ts
lines 677-905)

The six regular expressions are modelled as matchers over the character
list of the input; `scanFor` gives the leftmost-match semantics of
JavaScript `String.match`.  Captured numerals are converted to exact
rationals (`parseFloat` on a `[+-]?\d+(\.\d*)?` capture is exact). -/

/-- JavaScript whitespace (`\s`, `trim`), restricted to the characters that
can occur here. -/
def isSpaceChar (c : Char) : Bool :=
  c = ' ' || c = '\t' || c = '\n' || c = '\r'

/-- The regex character class `[NSEW]`. -/
def isDirChar (c : Char) : Bool :=
  c = 'N' || c = 'S' || c = 'E' || c = 'W'

/-- Greedy match of `\d+\.?\d*` at the head of the input; returns the
capture and the rest. -/
def pNum (l : List Char) : Option (List Char × List Char) :=
  let ds := l.takeWhile Char.isDigit
  let r1 := l.dropWhile Char.isDigit
  if ds.isEmpty then none
  else
    match r1 with
    | '.' :: r2 =>
      some (ds ++ '.' :: r2.takeWhile Char.isDigit, r2.dropWhile Char.isDigit)
    | _ => some (ds, r1)

/-- Greedy match of `\d+` at the head of the input. -/
def pInt (l : List Char) : Option (List Char × List Char) :=
  let ds := l.takeWhile Char.isDigit
  if ds.isEmpty then none else some (ds, l.dropWhile Char.isDigit)

/-- Greedy match of `[+-]?\d+\.?\d*` at the head of the input. -/
def pSignedNum (l : List Char) : Option (List Char × List Char) :=
  match l with
  | '+' :: r => (pNum r).map (fun p => ('+' :: p.1, p.2))
  | '-' :: r => (pNum r).map (fun p => ('-' :: p.1, p.2))
  | _ => pNum l

/-- Value of a digit string (`parseInt`). -/
def digitsToNat (ds : List Char) : Nat :=
  ds.foldl (fun n c => 10 * n + (c.toNat - 48)) 0

/-- `parseFloat` of an unsigned capture `\d+(\.\d*)?`, as an exact
rational. -/
def capToRatPos (l : List Char) : ℚ :=
  let ds := l.takeWhile Char.isDigit
  match l.dropWhile Char.isDigit with
  | '.' :: fs => (digitsToNat ds : ℚ) + (digitsToNat fs : ℚ) / ((10 : ℚ) ^ fs.length)
  | _ => (digitsToNat ds : ℚ)

/-- `parseFloat` of a `[+-]?\d+(\.\d*)?` capture, as an exact rational. -/
def capToRat (l : List Char) : ℚ :=
  match l with
  | '-' :: r => -(capToRatPos r)
  | '+' :: r => capToRatPos r
  | _ => capToRatPos l

/-- Leftmost-match scan: try the matcher at every start position, left to
right. -/
def scanFor (p : List Char → Option α) : List Char → Option α
  | [] => p []
  | l@(_ :: rest) =>
    match p l with
    | some r => some r
    | none => scanFor p rest

/-- Format 1 matcher, `([+-]?\d+\.?\d*)\s*,\s*([+-]?\d+\.?\d*)`, at a fixed
position. -/
def decimalPairAt (l : List Char) : Option (List Char × List Char) := do
  let (a, r1) ← pSignedNum l
  match r1.dropWhile isSpaceChar with
  | ',' :: r3 =>
    let (b, _) ← pSignedNum (r3.dropWhile isSpaceChar)
    pure (a, b)
  | _ => none

/-- Format 2 matcher, `[?&]q=([+-]?\d+\.?\d*),([+-]?\d+\.?\d*)`, at a fixed
position. -/
def urlPairAt (l : List Char) : Option (List Char × List Char) :=
  match l with
  | c :: 'q' :: '=' :: r2 =>
    if c = '?' || c = '&' then
      match pSignedNum r2 with
      | some (a, ',' :: r4) => (pSignedNum r4).map (fun p => (a, p.1))
      | _ => none
    else none
  | _ => none

/-- Format 3 matcher, `(\d+\.?\d*)°([NSEW])\s+(\d+\.?\d*)°([NSEW])`, at a
fixed position. -/
def decDirAt (l : List Char) : Option (List Char × Char × List Char × Char) := do
  let (a, r1) ← pNum l
  match r1 with
  | '°' :: d1 :: r2 =>
    if isDirChar d1 && !(r2.takeWhile isSpaceChar).isEmpty then
      let (b, r4) ← pNum (r2.dropWhile isSpaceChar)
      match r4 with
      | '°' :: d2 :: _ => if isDirChar d2 then pure (a, d1, b, d2) else none
      | _ => none
    else none
  | _ => none

/-- Format 4 matcher, `(\d+)°(\d+\.?\d*)′([NSEW])\s+(\d+)°(\d+\.?\d*)′([NSEW])`
(degrees and decimal minutes), at a fixed position. -/
def dmAt (l : List Char) :
    Option (List Char × List Char × Char × List Char × List Char × Char) := do
  let (d1, r1) ← pInt l
  match r1 with
  | '°' :: r2 =>
    let (m1, r3) ← pNum r2
    match r3 with
    | '′' :: c1 :: r4 =>
      if isDirChar c1 && !(r4.takeWhile isSpaceChar).isEmpty then
        let (d2, r6) ← pInt (r4.dropWhile isSpaceChar)
        match r6 with
        | '°' :: r7 =>
          let (m2, r8) ← pNum r7
          match r8 with
          | '′' :: c2 :: _ => if isDirChar c2 then pure (d1, m1, c1, d2, m2, c2) else none
          | _ => none
        | _ => none
      else none
    | _ => none
  | _ => none

/-- Format 5 matcher, `(\d+)°(\d+)′(\d+)″([NSEW])\s+(\d+)°(\d+)′(\d+)″([NSEW])`
(integer degrees-minutes-seconds), at a fixed position. -/
def dmsAt (l : List Char) :
    Option (List Char × List Char × List Char × Char ×
            List Char × List Char × List Char × Char) := do
  let (d1, r1) ← pInt l
  match r1 with
  | '°' :: r2 =>
    let (m1, r3) ← pInt r2
    match r3 with
    | '′' :: r4 =>
      let (s1, r5) ← pInt r4
      match r5 with
      | '″' :: c1 :: r6 =>
        if isDirChar c1 && !(r6.takeWhile isSpaceChar).isEmpty then
          let (d2, r8) ← pInt (r6.dropWhile isSpaceChar)
          match r8 with
          | '°' :: r9 =>
            let (m2, r10) ← pInt r9
            match r10 with
            | '′' :: r11 =>
              let (s2, r12) ← pInt r11
              match r12 with
              | '″' :: c2 :: _ =>
                if isDirChar c2 then pure (d1, m1, s1, c1, d2, m2, s2, c2) else none
              | _ => none
            | _ => none
          | _ => none
        else none
      | _ => none
    | _ => none
  | _ => none

/-- Format 6 matcher,
`(\d+)°(\d+)′(\d+\.?\d*)″([NSEW])\s+(\d+)°(\d+)′(\d+\.?\d*)″([NSEW])`
(decimal seconds), at a fixed position. -/
def dmsDecAt (l : List Char) :
    Option (List Char × List Char × List Char × Char ×
            List Char × List Char × List Char × Char) := do
  let (d1, r1) ← pInt l
  match r1 with
  | '°' :: r2 =>
    let (m1, r3) ← pInt r2
    match r3 with
    | '′' :: r4 =>
      let (s1, r5) ← pNum r4
      match r5 with
      | '″' :: c1 :: r6 =>
        if isDirChar c1 && !(r6.takeWhile isSpaceChar).isEmpty then
          let (d2, r8) ← pInt (r6.dropWhile isSpaceChar)
          match r8 with
          | '°' :: r9 =>
            let (m2, r10) ← pInt r9
            match r10 with
            | '′' :: r11 =>
              let (s2, r12) ← pNum r11
              match r12 with
              | '″' :: c2 :: _ =>
                if isDirChar c2 then pure (d1, m1, s1, c1, d2, m2, s2, c2) else none
              | _ => none
            | _ => none
          | _ => none
        else none
      | _ => none
    | _ => none
  | _ => none

/-- Post-conversion range validation, shared by all six formats. -/
def validCoords (lat lon : ℚ) : Bool :=
  decide (-90 ≤ lat) && decide (lat ≤ 90) && decide (-180 ≤ lon) && decide (lon ≤ 180)

/-- Format 1: plain decimal pair. -/
def tryFormat1 (l : List Char) : Option (ℚ × ℚ) :=
  match scanFor decimalPairAt l with
  | some (a, b) =>
    let lat := capToRat a
    let lon := capToRat b
    if validCoords lat lon then some (lat, lon) else none
  | none => none

/-- Format 2: Google-Maps URL `q=` pair. -/
def tryFormat2 (l : List Char) : Option (ℚ × ℚ) :=
  match scanFor urlPairAt l with
  | some (a, b) =>
    let lat := capToRat a
    let lon := capToRat b
    if validCoords lat lon then some (lat, lon) else none
  | none => none

/-- Format 3: decimal degrees with cardinal direction; S and W flip the
sign. -/
def tryFormat3 (l : List Char) : Option (ℚ × ℚ) :=
  match scanFor decDirAt l with
  | some (a, da, b, db) =>
    let lat0 := capToRat a
    let lon0 := capToRat b
    let lat := if da = 'S' then -lat0 else lat0
    let lon := if db = 'W' then -lon0 else lon0
    if validCoords lat lon then some (lat, lon) else none
  | none => none

/-- Format 4: degrees and decimal minutes; `decimal = degrees + minutes/60`,
S and W flip the sign. -/
def tryFormat4 (l : List Char) : Option (ℚ × ℚ) :=
  match scanFor dmAt l with
  | some (d1, m1, c1, d2, m2, c2) =>
    let lat0 := (digitsToNat d1 : ℚ) + capToRatPos m1 / 60
    let lon0 := (digitsToNat d2 : ℚ) + capToRatPos m2 / 60
    let lat := if c1 = 'S' then -lat0 else lat0
    let lon := if c2 = 'W' then -lon0 else lon0
    if validCoords lat lon then some (lat, lon) else none
  | none => none

/-- Format 5: integer degrees-minutes-seconds;
`decimal = degrees + minutes/60 + seconds/3600`, S and W flip the sign. -/
def tryFormat5 (l : List Char) : Option (ℚ × ℚ) :=
  match scanFor dmsAt l with
  | some (d1, m1, s1, c1, d2, m2, s2, c2) =>
    let lat0 := (digitsToNat d1 : ℚ) + (digitsToNat m1 : ℚ) / 60 + (digitsToNat s1 : ℚ) / 3600
    let lon0 := (digitsToNat d2 : ℚ) + (digitsToNat m2 : ℚ) / 60 + (digitsToNat s2 : ℚ) / 3600
    let lat := if c1 = 'S' then -lat0 else lat0
    let lon := if c2 = 'W' then -lon0 else lon0
    if validCoords lat lon then some (lat, lon) else none
  | none => none

/-- Format 6: degrees-minutes-seconds with decimal seconds. -/
def tryFormat6 (l : List Char) : Option (ℚ × ℚ) :=
  match scanFor dmsDecAt l with
  | some (d1, m1, s1, c1, d2, m2, s2, c2) =>
    let lat0 := (digitsToNat d1 : ℚ) + (digitsToNat m1 : ℚ) / 60 + capToRatPos s1 / 3600
    let lon0 := (digitsToNat d2 : ℚ) + (digitsToNat m2 : ℚ) / 60 + capToRatPos s2 / 3600
    let lat := if c1 = 'S' then -lat0 else lat0
    let lon := if c2 = 'W' then -lon0 else lon0
    if validCoords lat lon then some (lat, lon) else none
  | none => none

/-- `extractCoordinatesFromStrMap` (lines 677-905): empty or
whitespace-only input yields `null` immediately; otherwise the six formats
are tried in order and the first whose match passes range validation is
returned. -/
def extractCoordinatesFromStrMap (strMap : String) : Option (ℚ × ℚ) :=
  let l := strMap.data
  if (l.dropWhile isSpaceChar).isEmpty then none
  else
    match tryFormat1 l with
    | some r => some r
    | none =>
      match tryFormat2 l with
      | some r => some r
      | none =>
        match tryFormat3 l with
        | some r => some r
        | none =>
          match tryFormat4 l with
          | some r => some r
          | none =>
            match tryFormat5 l with
            | some r => some r
            | none => tryFormat6 l

/-! ### Venue resolution and weather enrichment paths

Two code paths resolve venue coordinates and decide whether to fetch
weather: the per-match body of `syncPreviousMatches` (lines 479-554) and
the read-only `getUpcomingMatches` enrichment (lines 37-143).  External
effects are made observable as a call log; the results the external
services would return are passed in as parameters. -/

/-- JavaScript truthiness of a possibly-absent number: `undefined`/`NaN`
and `0` are falsy. -/
def truthyQ : Option ℚ → Bool
  | none => false
  | some x => !(x == 0)

/-- JavaScript truthiness of a possibly-absent string: `undefined` and `""`
are falsy. -/
def truthyS : Option String → Bool
  | none => false
  | some s => !(s == "")

/-- An external API call made during enrichment. -/
inductive ExtCall where
  | venueSearch (name : String)
  | weatherFetch (lat lon : ℚ)
  deriving DecidableEq

/-- A stored venue document (fields used by the resolution paths;
`lat`/`lon` are optional in the schema). -/
structure VenueDoc where
  idVenue : String
  strVenue : String
  lat : Option ℚ
  lon : Option ℚ
  deriving DecidableEq

/-- Provider venue payload: the raw map string plus the explicit coordinate
fields.  A numeric field is the rational value `parseFloat` yields on it;
an absent field is `none` (a present non-numeric field parses to `NaN`,
which every later use treats like `undefined`, so it is collapsed with
`none`). -/
structure VenueData where
  strMap : Option String
  doubleLat : Option ℚ
  strLatitude : Option ℚ
  doubleLong : Option ℚ
  strLongitude : Option ℚ
  deriving DecidableEq

/-- A raw match from the provider (fields used by enrichment). -/
structure RawMatch where
  idEvent : String
  strVenue : String
  idVenue : Option String
  strTimestamp : Option String
  deriving DecidableEq

/-- The `doubleLat ?? strLatitude` fallback chain
(`venueData.doubleLat !== undefined ? parseFloat(...) : venueData.strLatitude
!== undefined ? parseFloat(...) : undefined`). -/
def fallbackLat (vd : VenueData) : Option ℚ :=
  match vd.doubleLat with
  | some q => some q
  | none => vd.strLatitude

/-- The `doubleLong ?? strLongitude` fallback chain. -/
def fallbackLon (vd : VenueData) : Option ℚ :=
  match vd.doubleLong with
  | some q => some q
  | none => vd.strLongitude

/-- Coordinate resolution from a provider venue payload, common to both
paths (lines 489-515 and 63-89): extract from `strMap` when that field is
truthy, then, if either resulting coordinate is falsy (absent or `0`),
overwrite both from the explicit fallback fields. -/
def resolveVenueCoords (vd : VenueData) : Option ℚ × Option ℚ :=
  let fromMap : Option ℚ × Option ℚ :=
    match vd.strMap with
    | some s =>
      if !(s == "") then
        match extractCoordinatesFromStrMap s with
        | some c => (some c.1, some c.2)
        | none => (none, none)
      else (none, none)
    | none => (none, none)
  if !truthyQ fromMap.1 || !truthyQ fromMap.2 then (fallbackLat vd, fallbackLon vd)
  else fromMap

/-- `venueModel.findOneAndUpdate({idVenue}, venueUpdate, {upsert: true})`. -/
def venueUpsert (store : List VenueDoc) (v : VenueDoc) : List VenueDoc :=
  if store.any (fun w => w.idVenue == v.idVenue) then
    store.map (fun w => if w.idVenue == v.idVenue then v else w)
  else store ++ [v]

/-- Result of enriching one match. -/
structure EnrichResult where
  calls : List ExtCall
  lat : Option ℚ
  lon : Option ℚ
  weather : Option WeatherSnapshot
  venueStore : List VenueDoc

/-- The per-match enrichment of `syncPreviousMatches` (lines 479-554): the
venue search API is called unconditionally for every match ("Always search
for venue coordinates using strVenue for each match"); the stored venue
collection is never consulted for coordinates.  Weather is fetched only
when both resolved coordinates are truthy, and the fetched snapshot (which
may itself be `null`) becomes the match document's `weatherAtMatchTime`. -/
def syncMatchEnrichment (venueStore : List VenueDoc) (m : RawMatch)
    (searchResult : Option VenueData) (weatherResult : Option WeatherSnapshot) :
    EnrichResult :=
  let calls0 := [ExtCall.venueSearch m.strVenue]
  let (lat, lon) :=
    match searchResult with
    | some vd => resolveVenueCoords vd
    | none => ((none : Option ℚ), (none : Option ℚ))
  let store1 :=
    match searchResult with
    | some _ =>
      venueUpsert venueStore
        { idVenue := m.idVenue.getD "", strVenue := m.strVenue, lat := lat, lon := lon }
    | none => venueStore
  if truthyQ lat && truthyQ lon then
    { calls := calls0 ++ [ExtCall.weatherFetch (lat.getD 0) (lon.getD 0)]
      lat := lat, lon := lon, weather := weatherResult, venueStore := store1 }
  else
    { calls := calls0, lat := lat, lon := lon, weather := none, venueStore := store1 }

/-- Lines 54-117 of the upcoming-matches path: search the provider, resolve
coordinates, and save the venue when coordinates and the match's venue id
are truthy. -/
def upcomingSearchBranch (venueStore : List VenueDoc) (m : RawMatch)
    (searchResult : Option VenueData) :
    List ExtCall × Option ℚ × Option ℚ × List VenueDoc :=
  let calls := [ExtCall.venueSearch m.strVenue]
  match searchResult with
  | some vd =>
    let (lat, lon) := resolveVenueCoords vd
    if truthyQ lat && truthyQ lon && truthyS m.idVenue then
      (calls, lat, lon,
        venueUpsert venueStore
          { idVenue := m.idVenue.getD "", strVenue := m.strVenue, lat := lat, lon := lon })
    else (calls, lat, lon, venueStore)
  | none => (calls, none, none, venueStore)

/-- The per-match enrichment of the upcoming-matches read path (lines
37-143): the venue is first looked up in the store by id or name; when it
is found and both stored coordinates are truthy, they are used and no
venue-search API call is made.  Otherwise the search path runs, and a venue
with truthy coordinates and id is saved back.  Weather additionally
requires a truthy `strTimestamp`. -/
def upcomingMatchEnrichment (venueStore : List VenueDoc) (m : RawMatch)
    (searchResult : Option VenueData) (weatherResult : Option WeatherSnapshot) :
    EnrichResult :=
  let venueInDb := venueStore.find?
    (fun v => some v.idVenue == m.idVenue || v.strVenue == m.strVenue)
  let (calls0, lat, lon, store1) :=
    match venueInDb with
    | some v =>
      if truthyQ v.lat && truthyQ v.lon then
        (([] : List ExtCall), v.lat, v.lon, venueStore)
      else
        upcomingSearchBranch venueStore m searchResult
    | none => upcomingSearchBranch venueStore m searchResult
  if truthyQ lat && truthyQ lon && truthyS m.strTimestamp then
    { calls := calls0 ++ [ExtCall.weatherFetch (lat.getD 0) (lon.getD 0)]
      lat := lat, lon := lon, weather := weatherResult, venueStore := store1 }
  else
    { calls := calls0, lat := lat, lon := lon, weather := none, venueStore := store1 }

/-! ## Helper lemmas -/

theorem countByIdEvent_cons (m : MatchDoc) (rest : List MatchDoc) (e : String) :
    countByIdEvent (m :: rest) e =
      (if m.idEvent = e then 1 else 0) + countByIdEvent rest e := by
  simp only [countByIdEvent, List.filter_cons]
  split <;> rename_i h <;> simp_all <;> omega

theorem countByIdEvent_replaceFirst (s : List MatchDoc) (d : MatchDoc) (e : String) :
    countByIdEvent (replaceFirst s d) e = countByIdEvent s e := by
  induction s with
  | nil => rfl
  | cons m rest ih =>
    unfold replaceFirst
    by_cases h : (m.idEvent == d.idEvent) = true
    · have hme : m.idEvent = d.idEvent := by simpa using h
      simp only [h, if_true]
      rw [countByIdEvent_cons, countByIdEvent_cons, hme]
    · simp only [h, Bool.false_eq_true, if_false]
      rw [countByIdEvent_cons, countByIdEvent_cons, ih]

theorem countByIdEvent_pos_of_any (s : List MatchDoc) (d : MatchDoc)
    (h : s.any (fun m => m.idEvent == d.idEvent) = true) :
    0 < countByIdEvent s d.idEvent := by
  induction s with
  | nil => simp at h
  | cons m rest ih =>
    simp only [List.any_cons, Bool.or_eq_true] at h
    rw [countByIdEvent_cons]
    rcases h with h | h
    · have hme : m.idEvent = d.idEvent := by simpa using h
      simp [hme]
    · have := ih h
      omega

theorem countByIdEvent_zero_of_not_any (s : List MatchDoc) (d : MatchDoc)
    (h : s.any (fun m => m.idEvent == d.idEvent) = false) :
    countByIdEvent s d.idEvent = 0 := by
  induction s with
  | nil => rfl
  | cons m rest ih =>
    simp only [List.any_cons, Bool.or_eq_false_iff] at h
    rw [countByIdEvent_cons, ih h.2]
    have hme : ¬ m.idEvent = d.idEvent := by
      intro hc
      simp [hc] at h
    simp [hme]

theorem countByIdEvent_append_single (s : List MatchDoc) (d : MatchDoc) (e : String) :
    countByIdEvent (s ++ [d]) e =
      countByIdEvent s e + (if d.idEvent = e then 1 else 0) := by
  simp only [countByIdEvent, List.filter_append, List.length_append]
  congr 1
  simp only [List.filter_cons, List.filter_nil]
  split <;> rename_i h <;> simp_all

theorem countByIdEvent_upsert_self (s : List MatchDoc) (d : MatchDoc)
    (h : countByIdEvent s d.idEvent ≤ 1) :
    countByIdEvent (upsertMatch s d) d.idEvent = 1 := by
  unfold upsertMatch
  by_cases ha : s.any (fun m => m.idEvent == d.idEvent) = true
  · simp only [ha, if_true]
    rw [countByIdEvent_replaceFirst]
    have := countByIdEvent_pos_of_any s d ha
    omega
  · simp only [ha, Bool.false_eq_true, if_false]
    rw [countByIdEvent_append_single,
      countByIdEvent_zero_of_not_any s d (by simpa using ha)]
    simp

theorem countByIdEvent_upsert_other (s : List MatchDoc) (d : MatchDoc) (e : String)
    (h : e ≠ d.idEvent) :
    countByIdEvent (upsertMatch s d) e = countByIdEvent s e := by
  unfold upsertMatch
  split
  · exact countByIdEvent_replaceFirst s d e
  · have : (d.idEvent == e) = false := by
      simp [Ne.symm h]
    simp [countByIdEvent, List.filter_append, this]

theorem countByIdEvent_upsert_le (s : List MatchDoc) (d : MatchDoc)
    (hWF : ∀ e, countByIdEvent s e ≤ 1) (e : String) :
    countByIdEvent (upsertMatch s d) e ≤ 1 := by
  by_cases h : e = d.idEvent
  · subst h
    rw [countByIdEvent_upsert_self s d (hWF _)]
  · rw [countByIdEvent_upsert_other s d e h]
    exact hWF e

theorem countByIdEvent_foldl_not_mem (ds : List MatchDoc) (s : List MatchDoc) (e : String)
    (he : e ∉ ds.map MatchDoc.idEvent) :
    countByIdEvent (List.foldl upsertMatch s ds) e = countByIdEvent s e := by
  induction ds generalizing s with
  | nil => rfl
  | cons d rest ih =>
    simp only [List.map_cons, List.mem_cons, not_or] at he
    rw [List.foldl_cons, ih _ he.2, countByIdEvent_upsert_other s d e he.1]

theorem truthyQ_some_zero : truthyQ (some (0 : ℚ)) = false := by
  simp [truthyQ]

theorem resolveVenueCoords_cases (vd : VenueData) :
    resolveVenueCoords vd = (fallbackLat vd, fallbackLon vd)
    ∨ (truthyQ (resolveVenueCoords vd).1 = true
        ∧ truthyQ (resolveVenueCoords vd).2 = true) := by
  unfold resolveVenueCoords
  dsimp only
  split
  · left; rfl
  · rename_i hcond
    right
    simp only [Bool.not_eq_true, Bool.or_eq_false_iff, Bool.not_eq_false'] at hcond
    exact hcond

theorem upcomingSearchBranch_calls (store : List VenueDoc) (m : RawMatch)
    (sr : Option VenueData) :
    (upcomingSearchBranch store m sr).1 = [ExtCall.venueSearch m.strVenue] := by
  rcases sr with _ | vd
  · rfl
  · unfold upcomingSearchBranch
    rcases hres : resolveVenueCoords vd with ⟨la, lo⟩
    dsimp only
    rw [hres]
    dsimp only
    split <;> rfl

/-! ## Claim theorems -/

/-- C1: during a sync run, the external season-listing API call is skipped
exactly when the season's year is not the current year and the store
already holds at least one match for the `(league, season)` pair; in
particular, with a stored match for `(league=4346, season="2020")` and
`currentYear=2025`, syncing with `yearsToSync=5` skips the call for season
`"2020"` but performs it for `"2025"` (and every other season of the
run). -/
theorem season_api_skip_rule :
    (∀ (store : List MatchDoc) (leagueId currentYear i : Nat) (season : String) (called : Bool),
        seasonIteration store leagueId currentYear i = Except.ok (season, called) →
          (called = false ↔
            (currentYear - i ≠ currentYear ∧ 1 ≤ countSeasonMatches store leagueId season)))
    ∧ seasonCallPlan [⟨"E1", "4346", "2020", none, none⟩] 4346 2025 5 =
        Except.ok [("2025", true), ("2024", true), ("2023", true), ("2022", true),
                   ("2021", true), ("2020", false)] := by
  constructor
  · intro store leagueId currentYear i season called h
    unfold seasonIteration at h
    dsimp only at h
    cases hl : seasonLabel leagueId (currentYear - i) with
    | error msg => rw [hl] at h; simp [Except.map] at h
    | ok sn =>
      rw [hl] at h
      simp only [Except.map, Except.ok.injEq, Prod.mk.injEq] at h
      obtain ⟨hs, hc⟩ := h
      subst hs
      rw [← hc]
      constructor
      · intro hfalse
        simp only [Bool.not_eq_false', Bool.and_eq_true, Bool.not_eq_true',
          decide_eq_true_eq] at hfalse
        constructor
        · intro hcy
          rw [hcy] at hfalse
          simp at hfalse
        · omega
      · intro ⟨hy, hcnt⟩
        simp only [Bool.not_eq_false', Bool.and_eq_true, Bool.not_eq_true',
          decide_eq_true_eq]
        exact ⟨by simpa using hy, by omega⟩
  · rfl

/-- C1 witness: the season-skip characterization applied to the concrete
store of the spec's example, at season `"2020"`. -/
theorem season_api_skip_rule_witness :
    2025 - 5 ≠ 2025 ∧
      1 ≤ countSeasonMatches [⟨"E1", "4346", "2020", none, none⟩] 4346 "2020" :=
  (season_api_skip_rule.1 [⟨"E1", "4346", "2020", none, none⟩] 4346 2025 5 "2020" false
    rfl).mp rfl

/-- C2: match records are upserted keyed by `idEvent`: starting from any
store holding at most one document per event id, after any sequence of
per-match upserts (re-syncs with changed scores included) the store holds
exactly one document for every upserted event id. -/
theorem match_upsert_unique_per_idEvent (s : List MatchDoc)
    (hWF : ∀ e, countByIdEvent s e ≤ 1) (ds : List MatchDoc) (e : String)
    (he : e ∈ ds.map MatchDoc.idEvent) :
    countByIdEvent (List.foldl upsertMatch s ds) e = 1 := by
  induction ds generalizing s with
  | nil => simp at he
  | cons d rest ih =>
    rw [List.foldl_cons]
    by_cases hr : e ∈ rest.map MatchDoc.idEvent
    · exact ih (upsertMatch s d) (countByIdEvent_upsert_le s d hWF) hr
    · simp only [List.map_cons, List.mem_cons] at he
      rcases he with he | he
      · subst he
        rw [countByIdEvent_foldl_not_mem rest (upsertMatch s d) _ hr]
        exact countByIdEvent_upsert_self s d (hWF _)
      · exact absurd he hr

/-- C2 witness: two sync runs over the same external event with changed
scores leave exactly one stored document for that `idEvent`. -/
theorem match_upsert_unique_per_idEvent_witness :
    countByIdEvent
      (List.foldl upsertMatch []
        [⟨"E1", "4346", "2020", some "1", some "0"⟩,
         ⟨"E1", "4346", "2020", some "2", some "0"⟩]) "E1" = 1 :=
  match_upsert_unique_per_idEvent [] (fun e => by simp [countByIdEvent])
    [⟨"E1", "4346", "2020", some "1", some "0"⟩,
     ⟨"E1", "4346", "2020", some "2", some "0"⟩] "E1" (by simp)

section
attribute [local semireducible] Rat.add Rat.mul Rat.inv Rat.sub

/-- C7: the coordinate extractor, on the spec's literal cases: a plain
decimal pair parses as-is; decimal degrees with cardinal suffix flip the
sign for W; full DMS converts via `degrees + minutes/60 + seconds/3600`
with sign flip for W; empty, whitespace-only and non-matching input yield
`none`.  The last two conjuncts exhibit the fixed priority order and the
first-in-range-match rule: an out-of-range decimal-pair match falls
through to the later direction format, while an in-range decimal pair
takes priority over it. -/
theorem extract_coordinates_literal_cases :
    extractCoordinatesFromStrMap "30.3877, -97.7195" =
        some (303877/10000, -(977195/10000))
    ∧ extractCoordinatesFromStrMap "34.013°N 118.285°W" =
        some (34013/1000, -(118285/1000))
    ∧ extractCoordinatesFromStrMap "39°28′29″N 0°21′30″W" =
        some (39 + 28/60 + 29/3600, -(0 + 21/60 + 30/3600))
    ∧ extractCoordinatesFromStrMap "" = none
    ∧ extractCoordinatesFromStrMap "   " = none
    ∧ extractCoordinatesFromStrMap "garbage text" = none
    ∧ extractCoordinatesFromStrMap "999.0, 8.0 34.013°N 118.285°W" =
        some (34013/1000, -(118285/1000))
    ∧ extractCoordinatesFromStrMap "25.0, 30.0 34.013°N 118.285°W" =
        some (25, 30) := by
  refine ⟨?_, ?_, ?_, ?_, ?_, ?_, ?_, ?_⟩ <;> decide

end

/-- C3: contrary to the claim, after a sync run terminates — successfully
or with an error — the status key is absent, not holding the terminal
status: the `finally` block's `setSyncLock(false)` deletes the status key
right after the terminal status (with its 1-hour TTL) was written, so
`getSyncStatus` returns `{isRunning: false, status: null}`. -/
theorem sync_finish_deletes_status (outcome : Except String SyncTotals) (now : String)
    (c : CacheState) :
    getSyncStatus (syncAllLeaguesFinish outcome now c).1 = (false, none)
    ∧ (syncAllLeaguesFinish outcome now c).1.lock = none := by
  cases outcome <;>
    simp [syncAllLeaguesFinish, setSyncLock, getSyncStatus, isSyncRunning]

/-- C9: `acquireSyncLock` does return `false` when the lock already holds
`"running"` (first two conjuncts, a single sequential caller), but it is
not atomic: under the interleaving read-A, read-B, write-A, write-B from an
unlocked state, BOTH concurrent callers return `true`, contradicting the
claimed mutual exclusion. -/
theorem acquire_lock_not_mutually_exclusive :
    (lockRun [true, true] ⟨some "running", LockPC.start, LockPC.start⟩).a =
        LockPC.done false
    ∧ (lockRun [true, true] ⟨some "running", LockPC.start, LockPC.start⟩).lock =
        some "running"
    ∧ (lockRun [true, false, true, false] ⟨none, LockPC.start, LockPC.start⟩).a =
        LockPC.done true
    ∧ (lockRun [true, false, true, false] ⟨none, LockPC.start, LockPC.start⟩).b =
        LockPC.done true :=
  ⟨rfl, rfl, rfl, rfl⟩

/-- C5 counterexample: the upcoming-match-listing operation does NOT return
an empty result on a failed request — it rethrows the network error, so
the claim that only season-listing propagates failure is false. -/
theorem upcoming_listing_raises_on_network_error :
    (getUpcomingMatchesOp 0
        (Except.error "network error" : Except String (Option (List Nat)))).result =
      Except.error "network error" := rfl

/-- C5 amended: venue-search never raises (any outcome yields an `ok`
result), while BOTH season-listing and upcoming-match-listing propagate a
failed request to the caller by raising; both return `[]` when the
response merely lacks an events payload. -/
theorem sports_ops_error_behavior :
    (∀ (c : Nat) (resp : Except String (Option (List Nat))),
        ∃ v, (searchVenueOp c resp).result = Except.ok v)
    ∧ (∀ (c : Nat) (e : String),
        (getMatchesBySeasonOp c
            (Except.error e : Except String (Option (List Nat)))).result = Except.error e
        ∧ (getUpcomingMatchesOp c
            (Except.error e : Except String (Option (List Nat)))).result = Except.error e)
    ∧ (∀ (c : Nat),
        (getMatchesBySeasonOp c
            (Except.ok (none : Option (List Nat)))).result = Except.ok []
        ∧ (getUpcomingMatchesOp c
            (Except.ok (none : Option (List Nat)))).result = Except.ok []) := by
  refine ⟨?_, ?_, ?_⟩
  · intro c resp
    rcases resp with e | o
    · exact ⟨none, rfl⟩
    · rcases o with _ | l
      · exact ⟨none, rfl⟩
      · rcases l with _ | ⟨v, rest⟩
        · exact ⟨none, rfl⟩
        · exact ⟨some v, rfl⟩
  · intro c e
    exact ⟨rfl, rfl⟩
  · intro c
    exact ⟨rfl, rfl⟩

/-- C6 counterexample: the weather fetch DOES raise to its caller when the
API key is missing — the guard throws before the try/catch — so the claim
that it never raises on any failure is false. -/
theorem weather_raises_without_api_key :
    getWeatherAtTimestamp none 1 2 "2020-01-01T00:00:00Z" (Except.ok (some [])) =
      Except.error "OPENWEATHER_API_KEY is not set in environment variables" := rfl

/-- C6 amended: with an API key configured, the weather fetch never raises
— a failed request or a malformed/empty response yields `ok none` — while
a missing API key raises a configuration error. -/
theorem weather_error_behavior :
    (∀ (key : String) (lat lon : ℚ) (ts : String)
        (resp : Except String (Option (List WeatherEntry))),
        ∃ v, getWeatherAtTimestamp (some key) lat lon ts resp = Except.ok v)
    ∧ (∀ (lat lon : ℚ) (ts : String)
        (resp : Except String (Option (List WeatherEntry))),
        getWeatherAtTimestamp none lat lon ts resp =
          Except.error "OPENWEATHER_API_KEY is not set in environment variables") := by
  constructor
  · intro key lat lon ts resp
    rcases resp with e | o
    · exact ⟨none, rfl⟩
    · rcases o with _ | l
      · exact ⟨none, rfl⟩
      · rcases l with _ | ⟨w, rest⟩
        · exact ⟨none, rfl⟩
        · exact ⟨_, rfl⟩
  · intro lat lon ts resp
    rfl

/-- C8: for every sports-provider operation invoked at counter value `c`:
the caller is suspended (for the 60-second cooldown) exactly when `c ≥ 28`,
the counter afterwards is `1` if `c ≥ 28` and `c + 1` otherwise —
independently of whether the underlying request succeeds or fails — and a
counter that was at most 28 stays at most 28. -/
theorem rate_limit_counter_behavior :
    (∀ (c : Nat) (resp : Except String (Option (List Nat))),
        (getMatchesBySeasonOp c resp).counter = (if 28 ≤ c then 1 else c + 1)
        ∧ (getMatchesBySeasonOp c resp).waited = decide (28 ≤ c)
        ∧ (searchVenueOp c resp).counter = (if 28 ≤ c then 1 else c + 1)
        ∧ (searchVenueOp c resp).waited = decide (28 ≤ c)
        ∧ (getUpcomingMatchesOp c resp).counter = (if 28 ≤ c then 1 else c + 1)
        ∧ (getUpcomingMatchesOp c resp).waited = decide (28 ≤ c))
    ∧ (∀ (c : Nat) (resp : Except String (Option (List Nat))), c ≤ 28 →
        (getMatchesBySeasonOp c resp).counter ≤ 28
        ∧ (searchVenueOp c resp).counter ≤ 28
        ∧ (getUpcomingMatchesOp c resp).counter ≤ 28)
    ∧ rateLimit = 28 ∧ waitTimeMs = 60000 := by
  have hcnt : ∀ c : Nat, (checkRateLimit c).1 + 1 = (if 28 ≤ c then 1 else c + 1) := by
    intro c
    by_cases h : 28 ≤ c <;> simp [checkRateLimit, rateLimit, h]
  have hwait : ∀ c : Nat, (checkRateLimit c).2 = decide (28 ≤ c) := by
    intro c
    by_cases h : 28 ≤ c <;> simp [checkRateLimit, rateLimit, h]
  have hops : ∀ (c : Nat) (resp : Except String (Option (List Nat))),
      (getMatchesBySeasonOp c resp).counter = (checkRateLimit c).1 + 1
      ∧ (getMatchesBySeasonOp c resp).waited = (checkRateLimit c).2
      ∧ (searchVenueOp c resp).counter = (checkRateLimit c).1 + 1
      ∧ (searchVenueOp c resp).waited = (checkRateLimit c).2
      ∧ (getUpcomingMatchesOp c resp).counter = (checkRateLimit c).1 + 1
      ∧ (getUpcomingMatchesOp c resp).waited = (checkRateLimit c).2 := by
    intro c resp
    rcases hcr : checkRateLimit c with ⟨c1, w⟩
    rcases resp with e | (_ | (_ | ⟨v, r⟩)) <;>
      simp [getMatchesBySeasonOp, searchVenueOp, getUpcomingMatchesOp, hcr]
  refine ⟨?_, ?_, rfl, rfl⟩
  · intro c resp
    obtain ⟨h1, h2, h3, h4, h5, h6⟩ := hops c resp
    rw [h1, h2, h3, h4, h5, h6, hcnt, hwait]
    exact ⟨rfl, rfl, rfl, rfl, rfl, rfl⟩
  · intro c resp hle
    obtain ⟨h1, _, h3, _, h5, _⟩ := hops c resp
    rw [h1, h3, h5, hcnt]
    refine ⟨?_, ?_, ?_⟩ <;> (by_cases h : 28 ≤ c <;> simp [h] <;> omega)

/-- C8 witness: invoked at the quota boundary `c = 28`, every operation
leaves the counter at most 28. -/
theorem rate_limit_counter_behavior_witness :
    28 ≤ 28 ∧
      ((getMatchesBySeasonOp 28 (Except.ok (none : Option (List Nat)))).counter ≤ 28
      ∧ (searchVenueOp 28 (Except.ok (none : Option (List Nat)))).counter ≤ 28
      ∧ (getUpcomingMatchesOp 28 (Except.ok (none : Option (List Nat)))).counter ≤ 28) :=
  ⟨by decide, rate_limit_counter_behavior.2.1 28 (Except.ok none) (by decide)⟩

/-- C4 counterexample: during match synchronization
(`syncPreviousMatches`), the venue-search API call is made even though the
stored venue record already holds non-null, nonzero coordinates — the sync
path never consults the venue store before searching. -/
theorem sync_enrichment_always_searches :
    ExtCall.venueSearch "Estadio Azteca" ∈
      (syncMatchEnrichment [⟨"V1", "Estadio Azteca", some 19, some (-99)⟩]
        ⟨"E1", "Estadio Azteca", some "V1", some "2020-01-01T00:00:00Z"⟩
        none none).calls := by
  simp [syncMatchEnrichment, truthyQ]

/-- C4 amended: only the upcoming-matches enrichment path returns stored
coordinates without an external venue-search call (when the stored venue is
found and both coordinates are truthy, i.e. non-null and nonzero);
`syncPreviousMatches` performs the venue search for every match regardless
of what the store holds. -/
theorem venue_coordinate_cache_behavior :
    (∀ (store : List VenueDoc) (m : RawMatch) (sr : Option VenueData)
        (w : Option WeatherSnapshot),
        ExtCall.venueSearch m.strVenue ∈ (syncMatchEnrichment store m sr w).calls)
    ∧ (∀ (store : List VenueDoc) (m : RawMatch) (sr : Option VenueData)
        (w : Option WeatherSnapshot) (v : VenueDoc),
        store.find? (fun v => some v.idVenue == m.idVenue || v.strVenue == m.strVenue)
            = some v →
        truthyQ v.lat = true → truthyQ v.lon = true →
          (upcomingMatchEnrichment store m sr w).lat = v.lat
          ∧ (upcomingMatchEnrichment store m sr w).lon = v.lon
          ∧ (upcomingMatchEnrichment store m sr w).venueStore = store
          ∧ ∀ name, ExtCall.venueSearch name ∉ (upcomingMatchEnrichment store m sr w).calls) := by
  constructor
  · intro store m sr w
    rcases sr with _ | vd
    · simp [syncMatchEnrichment, truthyQ]
    · unfold syncMatchEnrichment
      rcases hres : resolveVenueCoords vd with ⟨la, lo⟩
      dsimp only
      rw [hres]
      dsimp only
      split <;> simp
  · intro store m sr w v hfind hlat hlon
    by_cases hts : truthyS m.strTimestamp = true <;>
      simp [upcomingMatchEnrichment, hfind, hlat, hlon, hts]

/-- C4 witness: the amended claim's upcoming-path conjunct applied to a
store holding a venue with coordinates `(41, 2)`. -/
theorem venue_coordinate_cache_behavior_witness :
    (upcomingMatchEnrichment [⟨"V1", "Camp Nou", some 41, some 2⟩]
        ⟨"E1", "Camp Nou", some "V1", none⟩ none none).lat = some 41
    ∧ (upcomingMatchEnrichment [⟨"V1", "Camp Nou", some 41, some 2⟩]
        ⟨"E1", "Camp Nou", some "V1", none⟩ none none).lon = some 2
    ∧ (upcomingMatchEnrichment [⟨"V1", "Camp Nou", some 41, some 2⟩]
        ⟨"E1", "Camp Nou", some "V1", none⟩ none none).venueStore =
        [⟨"V1", "Camp Nou", some 41, some 2⟩]
    ∧ ∀ name, ExtCall.venueSearch name ∉
        (upcomingMatchEnrichment [⟨"V1", "Camp Nou", some 41, some 2⟩]
          ⟨"E1", "Camp Nou", some "V1", none⟩ none none).calls :=
  venue_coordinate_cache_behavior.2 [⟨"V1", "Camp Nou", some 41, some 2⟩]
    ⟨"E1", "Camp Nou", some "V1", none⟩ none none ⟨"V1", "Camp Nou", some 41, some 2⟩
    rfl (by simp [truthyQ]) (by simp [truthyQ])

/-- C10: coordinates equal to exactly 0 are treated as absent throughout
enrichment.  In the sync path, a resolved latitude or longitude of 0
implies the weather fetch is skipped (no weather call, stored snapshot
`none`) and the coordinates came from the explicit fallback fields, not the
map-string extraction.  In the upcoming path, a resolved zero coordinate
likewise suppresses the weather fetch, and a stored venue whose coordinate
is 0 does not short-circuit the search: the venue-search call is made. -/
theorem zero_coordinates_disable_weather :
    (∀ (store : List VenueDoc) (m : RawMatch) (sr : Option VenueData)
        (w : Option WeatherSnapshot),
        (syncMatchEnrichment store m sr w).lat = some 0
          ∨ (syncMatchEnrichment store m sr w).lon = some 0 →
          (syncMatchEnrichment store m sr w).weather = none
          ∧ (∀ la lo, ExtCall.weatherFetch la lo ∉ (syncMatchEnrichment store m sr w).calls)
          ∧ ∃ vd, sr = some vd
              ∧ (syncMatchEnrichment store m sr w).lat = fallbackLat vd
              ∧ (syncMatchEnrichment store m sr w).lon = fallbackLon vd)
    ∧ (∀ (store : List VenueDoc) (m : RawMatch) (sr : Option VenueData)
        (w : Option WeatherSnapshot),
        (upcomingMatchEnrichment store m sr w).lat = some 0
          ∨ (upcomingMatchEnrichment store m sr w).lon = some 0 →
          (upcomingMatchEnrichment store m sr w).weather = none
          ∧ ∀ la lo, ExtCall.weatherFetch la lo ∉ (upcomingMatchEnrichment store m sr w).calls)
    ∧ (∀ (store : List VenueDoc) (m : RawMatch) (sr : Option VenueData)
        (w : Option WeatherSnapshot) (v : VenueDoc),
        store.find? (fun v => some v.idVenue == m.idVenue || v.strVenue == m.strVenue)
            = some v →
        v.lat = some 0 ∨ v.lon = some 0 →
          ExtCall.venueSearch m.strVenue ∈ (upcomingMatchEnrichment store m sr w).calls) := by
  refine ⟨?_, ?_, ?_⟩
  · intro store m sr w h
    rcases sr with _ | vd
    · exfalso
      simp [syncMatchEnrichment, truthyQ] at h
    · rcases hres : resolveVenueCoords vd with ⟨la, lo⟩
      by_cases hc : (truthyQ la && truthyQ lo) = true
      · exfalso
        simp [syncMatchEnrichment, hres, hc] at h
        rcases h with h | h
        · rw [h] at hc
          simp [truthyQ] at hc
        · rw [h] at hc
          simp [truthyQ] at hc
      · have hcf : (truthyQ la && truthyQ lo) = false := by simpa using hc
        have hfb : la = fallbackLat vd ∧ lo = fallbackLon vd := by
          rcases resolveVenueCoords_cases vd with hc2 | ⟨h1, h2⟩
          · rw [hres] at hc2
            exact ⟨congrArg Prod.fst hc2, congrArg Prod.snd hc2⟩
          · rw [hres] at h1 h2
            rw [h1, h2] at hcf
            simp at hcf
        refine ⟨?_, ?_, vd, rfl, ?_, ?_⟩
        · simp [syncMatchEnrichment, hres, hcf]
        · intro la' lo'
          simp [syncMatchEnrichment, hres, hcf]
        · have hla : (syncMatchEnrichment store m (some vd) w).lat = la := by
            simp [syncMatchEnrichment, hres, hcf]
          rw [hla, hfb.1]
        · have hlo : (syncMatchEnrichment store m (some vd) w).lon = lo := by
            simp [syncMatchEnrichment, hres, hcf]
          rw [hlo, hfb.2]
  · intro store m sr w h
    rcases hfind : store.find?
        (fun v => some v.idVenue == m.idVenue || v.strVenue == m.strVenue) with _ | v
    · rcases hsb : upcomingSearchBranch store m sr with ⟨cs, la, lo, st⟩
      have hcs : cs = [ExtCall.venueSearch m.strVenue] := by
        have hh := upcomingSearchBranch_calls store m sr
        rw [hsb] at hh
        exact hh
      by_cases hc : (truthyQ la && truthyQ lo && truthyS m.strTimestamp) = true
      · exfalso
        simp [upcomingMatchEnrichment, hfind, hsb, hc] at h
        simp only [Bool.and_eq_true] at hc
        rcases h with h | h
        · rw [h] at hc
          simp [truthyQ] at hc
        · rw [h] at hc
          simp [truthyQ] at hc
      · have hcf : (truthyQ la && truthyQ lo && truthyS m.strTimestamp) = false := by
          simpa using hc
        constructor
        · simp [upcomingMatchEnrichment, hfind, hsb, hcf]
        · intro la' lo'
          simp [upcomingMatchEnrichment, hfind, hsb, hcf, hcs]
    · by_cases hv : (truthyQ v.lat && truthyQ v.lon) = true
      · by_cases hts : truthyS m.strTimestamp = true
        · exfalso
          simp [upcomingMatchEnrichment, hfind, hv, hts] at h
          simp only [Bool.and_eq_true] at hv
          rcases h with h | h
          · rw [h] at hv
            simp [truthyQ] at hv
          · rw [h] at hv
            simp [truthyQ] at hv
        · have htsf : truthyS m.strTimestamp = false := by simpa using hts
          constructor
          · simp [upcomingMatchEnrichment, hfind, hv, htsf]
          · intro la' lo'
            simp [upcomingMatchEnrichment, hfind, hv, htsf]
      · have hvf : (truthyQ v.lat && truthyQ v.lon) = false := by simpa using hv
        rcases hsb : upcomingSearchBranch store m sr with ⟨cs, la, lo, st⟩
        have hcs : cs = [ExtCall.venueSearch m.strVenue] := by
          have hh := upcomingSearchBranch_calls store m sr
          rw [hsb] at hh
          exact hh
        by_cases hc : (truthyQ la && truthyQ lo && truthyS m.strTimestamp) = true
        · exfalso
          simp [upcomingMatchEnrichment, hfind, hvf, hsb, hc] at h
          simp only [Bool.and_eq_true] at hc
          rcases h with h | h
          · rw [h] at hc
            simp [truthyQ] at hc
          · rw [h] at hc
            simp [truthyQ] at hc
        · have hcf : (truthyQ la && truthyQ lo && truthyS m.strTimestamp) = false := by
            simpa using hc
          constructor
          · simp [upcomingMatchEnrichment, hfind, hvf, hsb, hcf]
          · intro la' lo'
            simp [upcomingMatchEnrichment, hfind, hvf, hsb, hcf, hcs]
  · intro store m sr w v hfind hzero
    have hvf : (truthyQ v.lat && truthyQ v.lon) = false := by
      rcases hzero with h | h
      · rw [h]
        simp [truthyQ]
      · rw [h]
        simp [truthyQ]
    rcases hsb : upcomingSearchBranch store m sr with ⟨cs, la, lo, st⟩
    have hcs : cs = [ExtCall.venueSearch m.strVenue] := by
      have hh := upcomingSearchBranch_calls store m sr
      rw [hsb] at hh
      exact hh
    simp only [upcomingMatchEnrichment, hfind, hvf, hsb, hcs]
    split
    · rename_i hff
      exact Bool.noConfusion hff
    · split <;> simp

section
attribute [local semireducible] Rat.add Rat.mul Rat.inv Rat.sub

/-- C10 witness: the three conjuncts applied at concrete inputs — a
provider venue whose fallback latitude is exactly 0 (sync and upcoming
paths), and a stored venue with latitude 0 (upcoming path). -/
theorem zero_coordinates_disable_weather_witness :
    ((syncMatchEnrichment [] ⟨"E1", "Stadium X", some "V1", some "ts"⟩
        (some ⟨none, some 0, none, some 5, none⟩) none).weather = none
      ∧ (∀ la lo, ExtCall.weatherFetch la lo ∉
          (syncMatchEnrichment [] ⟨"E1", "Stadium X", some "V1", some "ts"⟩
            (some ⟨none, some 0, none, some 5, none⟩) none).calls)
      ∧ ∃ vd, (some ⟨none, some 0, none, some 5, none⟩ : Option VenueData) = some vd
          ∧ (syncMatchEnrichment [] ⟨"E1", "Stadium X", some "V1", some "ts"⟩
              (some ⟨none, some 0, none, some 5, none⟩) none).lat = fallbackLat vd
          ∧ (syncMatchEnrichment [] ⟨"E1", "Stadium X", some "V1", some "ts"⟩
              (some ⟨none, some 0, none, some 5, none⟩) none).lon = fallbackLon vd)
    ∧ ((upcomingMatchEnrichment [] ⟨"E1", "Stadium X", some "V1", some "ts"⟩
          (some ⟨none, some 0, none, some 5, none⟩) none).weather = none
      ∧ ∀ la lo, ExtCall.weatherFetch la lo ∉
          (upcomingMatchEnrichment [] ⟨"E1", "Stadium X", some "V1", some "ts"⟩
            (some ⟨none, some 0, none, some 5, none⟩) none).calls)
    ∧ ExtCall.venueSearch "Stadium Y" ∈
        (upcomingMatchEnrichment [⟨"V2", "Stadium Y", some 0, some 3⟩]
          ⟨"E2", "Stadium Y", some "V2", none⟩ none none).calls :=
  ⟨zero_coordinates_disable_weather.1 [] ⟨"E1", "Stadium X", some "V1", some "ts"⟩
      (some ⟨none, some 0, none, some 5, none⟩) none (Or.inl (by decide)),
   zero_coordinates_disable_weather.2.1 [] ⟨"E1", "Stadium X", some "V1", some "ts"⟩
      (some ⟨none, some 0, none, some 5, none⟩) none (Or.inl (by decide)),
   zero_coordinates_disable_weather.2.2 [⟨"V2", "Stadium Y", some 0, some 3⟩]
      ⟨"E2", "Stadium Y", some "V2", none⟩ none none ⟨"V2", "Stadium Y", some 0, some 3⟩
      (by decide) (Or.inl rfl)⟩

end

end MatchPredictor
